import Mathlib

/-!
Verification development for the tree-health telemetry dashboard.

The source program is a TypeScript/React single-page application.  Its core
logic (CSV parsing of the historical store's tabular responses, relative-time
formatting, the MQTT message handler that folds field updates into the live
snapshot, the historical-fetch operation, and the auto-refresh timer effect)
is shallowly embedded below.  JavaScript platform semantics are modelled as
follows:

* JavaScript numbers appearing as measurement values are modelled as `Rat`
  (all numerals reached by the claims are exactly representable);
* `Date` instants are modelled as integer milliseconds since the Unix epoch,
  with calendar conversion done in UTC (the runtime's `getDate`/`getMonth`/
  `getFullYear` use the local timezone; UTC is the canonical model);
* `new Date(string)` is modelled by `jsDateParse`, covering the ISO-8601
  forms `YYYY-MM-DD` and `YYYY-MM-DDTHH:MM:SS(.fff)?Z`; other inputs are
  modelled as an invalid date (`none`);
* `parseFloat` is modelled by `jsParseFloat` (longest numeric prefix with
  optional sign, fraction and exponent; no numeric prefix gives `none`,
  modelling `NaN`);
* a JavaScript object used as a string-keyed record is modelled as a
  function `String → Option JsVal`, property assignment as pointwise update;
* truthiness of an optional string (`undefined`/`""` falsy) is `truthyOptStr`.
-/

/-- A JavaScript value stored in a record: a number or a string. -/
inductive JsVal where
  | num (q : Rat)
  | str (s : String)
deriving DecidableEq, Repr

/-- Model of `String.prototype.padStart(2, '0')` for naturals below 100. -/
def pad2 (n : Nat) : String := if n < 10 then "0" ++ toString n else toString n

/-- Three-digit zero padding (milliseconds field of `toISOString`). -/
def pad3 (n : Nat) : String :=
  if n < 10 then "00" ++ toString n else if n < 100 then "0" ++ toString n else toString n

/-- Four-digit zero padding (year field of `toISOString`). -/
def pad4 (n : Nat) : String :=
  if n < 10 then "000" ++ toString n
  else if n < 100 then "00" ++ toString n
  else if n < 1000 then "0" ++ toString n
  else toString n

/-- Model of `s.slice(-2)`: the last two characters (the whole string if shorter). -/
def jsSliceNeg2 (s : String) : String := String.mk (s.data.drop (s.data.length - 2))

/-- Split a character list at every occurrence of `sep` (kernel-reducible core
of JavaScript `String.prototype.split` with a one-character separator). -/
def splitCharList (sep : Char) : List Char → List (List Char)
  | [] => [[]]
  | c :: cs =>
    let r := splitCharList sep cs
    if c = sep then [] :: r
    else
      match r with
      | h :: t => (c :: h) :: t
      | [] => [[c]]

/-- Model of `s.split(sep)` for a one-character separator. -/
def jsSplit (sep : Char) (s : String) : List String :=
  (splitCharList sep s.data).map String.mk

/-- Model of `s.trim()`: strip leading and trailing whitespace. -/
def jsTrim (s : String) : String :=
  String.mk (((s.data.dropWhile Char.isWhitespace).reverse.dropWhile Char.isWhitespace).reverse)

/-- Model of `s.startsWith('#')`. -/
def jsStartsWithHash (s : String) : Bool :=
  match s.data with
  | c :: _ => c = '#'
  | [] => false

/-- Days since 1970-01-01 of the Gregorian date `y-m-d` (proleptic, UTC). -/
def daysFromCivil (y m d : Int) : Int :=
  let y1 := if m ≤ 2 then y - 1 else y
  let era := (if 0 ≤ y1 then y1 else y1 - 399).tdiv 400
  let yoe := y1 - era * 400
  let mp := if 2 < m then m - 3 else m + 9
  let doy := (153 * mp + 2).tdiv 5 + d - 1
  let doe := yoe * 365 + yoe.tdiv 4 - yoe.tdiv 100 + doy
  era * 146097 + doe - 719468

/-- Gregorian date `(year, month, day)` of a count of days since 1970-01-01 (UTC). -/
def civilFromDays (z0 : Int) : Int × Int × Int :=
  let z := z0 + 719468
  let era := (if 0 ≤ z then z else z - 146096).tdiv 146097
  let doe := z - era * 146097
  let yoe := (doe - doe.tdiv 1460 + doe.tdiv 36524 - doe.tdiv 146096).tdiv 365
  let y := yoe + era * 400
  let doy := doe - (365 * yoe + yoe.tdiv 4 - yoe.tdiv 100)
  let mp := (5 * doy + 2).tdiv 153
  let d := doy - (153 * mp + 2).tdiv 5 + 1
  let m := if mp < 10 then mp + 3 else mp - 9
  (if m ≤ 2 then y + 1 else y, m, d)

/-- Gregorian leap-year test. -/
def isLeapYear (y : Nat) : Bool := y % 4 = 0 && (y % 100 ≠ 0 || y % 400 = 0)

/-- Number of days in month `m` of year `y`. -/
def daysInMonth (y m : Nat) : Nat :=
  if m = 2 then (if isLeapYear y then 29 else 28)
  else if m = 4 ∨ m = 6 ∨ m = 9 ∨ m = 11 then 30
  else 31

/-- Model of `Date.prototype.toISOString` on integer-millisecond instants. -/
def toISOString (ms : Int) : String :=
  let days := ms.fdiv 86400000
  let msOfDay := (ms - days * 86400000).toNat
  let ymd := civilFromDays days
  pad4 ymd.1.toNat ++ "-" ++ pad2 ymd.2.1.toNat ++ "-" ++ pad2 ymd.2.2.toNat ++
    "T" ++ pad2 (msOfDay / 3600000) ++ ":" ++ pad2 (msOfDay / 60000 % 60) ++ ":" ++
    pad2 (msOfDay / 1000 % 60) ++ "." ++ pad3 (msOfDay % 1000) ++ "Z"

/-- Read exactly `n` decimal digits, accumulating into `acc`. -/
def takeDigits : Nat → List Char → Nat → Option (Nat × List Char)
  | 0, cs, acc => some (acc, cs)
  | _ + 1, [], _ => none
  | n + 1, c :: cs, acc =>
      if c.isDigit then takeDigits n cs (acc * 10 + (c.toNat - 48)) else none

/-- Consume one expected character. -/
def expectChar (c : Char) : List Char → Option (List Char)
  | x :: xs => if x = c then some xs else none
  | [] => none

/-- Model of `new Date(string).getTime()` restricted to the ISO-8601 forms
`YYYY-MM-DD` and `YYYY-MM-DDTHH:MM:SS(.fff)?Z`; `none` models an invalid
date (`NaN` time value). -/
def jsDateParse (s : String) : Option Int := do
  let cs := s.data
  let (y, cs) ← takeDigits 4 cs 0
  let cs ← expectChar '-' cs
  let (mo, cs) ← takeDigits 2 cs 0
  let cs ← expectChar '-' cs
  let (d, cs) ← takeDigits 2 cs 0
  if mo < 1 ∨ 12 < mo ∨ d < 1 ∨ daysInMonth y mo < d then none else
  let dayMs : Int := daysFromCivil (y : Int) (mo : Int) (d : Int) * 86400000
  match cs with
  | [] => some dayMs
  | 'T' :: cs => do
    let (h, cs) ← takeDigits 2 cs 0
    let cs ← expectChar ':' cs
    let (mi, cs) ← takeDigits 2 cs 0
    let cs ← expectChar ':' cs
    let (se, cs) ← takeDigits 2 cs 0
    if 23 < h ∨ 59 < mi ∨ 59 < se then none else
    let (frac, cs) ← match cs with
      | '.' :: rest => takeDigits 3 rest 0
      | rest => some (0, rest)
    match cs with
    | ['Z'] => some (dayMs + ((h * 3600000 + mi * 60000 + se * 1000 + frac : Nat) : Int))
    | _ => none
  | _ => none

/-- Read a run of decimal digits, returning the value, the digit count and the rest. -/
def readNatDigits : List Char → Nat → Nat → Nat × Nat × List Char
  | c :: cs, acc, n =>
      if c.isDigit then readNatDigits cs (acc * 10 + (c.toNat - 48)) (n + 1)
      else (acc, n, c :: cs)
  | [], acc, n => (acc, n, [])

/-- Powers of ten on naturals (kernel-reducible, avoiding typeclass `Pow`). -/
def pow10 : Nat → Nat
  | 0 => 1
  | n + 1 => 10 * pow10 n

/-- Exponent part of a JavaScript float literal (0 when no digits follow). -/
def readExponent (cs : List Char) : Int :=
  let (eneg, cs) := match cs with
    | '-' :: rest => (true, rest)
    | '+' :: rest => (false, rest)
    | rest => (false, rest)
  let (ev, en, _) := readNatDigits cs 0 0
  if en = 0 then 0 else if eneg then -(ev : Int) else (ev : Int)

/-- Model of `parseFloat`: longest numeric prefix after leading whitespace;
`none` models `NaN` (no numeric prefix). -/
def jsParseFloat (s : String) : Option Rat :=
  let cs := s.data.dropWhile (fun c => c.isWhitespace)
  let (neg, cs) := match cs with
    | '-' :: rest => (true, rest)
    | '+' :: rest => (false, rest)
    | rest => (false, rest)
  let (ip, ni, cs) := readNatDigits cs 0 0
  let (fp, nf, cs) := match cs with
    | '.' :: rest => readNatDigits rest 0 0
    | other => (0, 0, other)
  if ni = 0 ∧ nf = 0 then none
  else
    let e : Int := match cs with
      | 'e' :: rest => readExponent rest
      | 'E' :: rest => readExponent rest
      | _ => 0
    let mantissaNum : Int := ((ip * pow10 nf + fp : Nat) : Int)
    let signedNum : Int := if neg then -mantissaNum else mantissaNum
    some (if 0 ≤ e then mkRat (signedNum * ((pow10 e.toNat : Nat) : Int)) (pow10 nf)
          else mkRat signedNum (pow10 nf * pow10 (-e).toNat))

/-- Model of `Array.prototype.indexOf` on string arrays (`none` models `-1`). -/
def jsIndexOf (xs : List String) (x : String) : Option Nat := xs.findIdx? (fun a => a = x)

/-- Template-string interpolation of a possibly `undefined` string value. -/
def jsShow : Option String → String
  | some s => s
  | none => "undefined"

/-- Truthiness of a possibly absent string: `undefined`/`null` and `""` are falsy. -/
def truthyOptStr : Option String → Bool
  | some s => !s.isEmpty
  | none => false

/-! ## TabularResultParser: `parseInfluxCSV` (src/unnamed/part_000, lines 29-73) -/

/-- One historical point.  In the source the point is the object
`{date, original_timestamp, sensor_id, [sensorType]: value}`; the computed
key and its numeric value are modelled by the `kindKey`/`value` fields. -/
structure HistoricalDataPoint where
  date : Int
  original_timestamp : String
  sensor_id : String
  kindKey : String
  value : Rat
deriving DecidableEq, Repr

/-- The line list of the CSV response: `csvText.trim().split('\n')`. -/
def csvLines (csvText : String) : List String := jsSplit '\n' (jsTrim csvText)

/-- Index of the first line not starting with `#` (the header line). -/
def findHeaderIndex (lines : List String) : Option Nat :=
  lines.findIdx? (fun l => !jsStartsWithHash l)

/-- Body of the data-row loop of `parseInfluxCSV`: one line either yields a
point or is skipped. -/
def parseCSVRow (timeIndex valueIndex : Nat) (sensorType sensorMeasurementId : String)
    (line : String) : Option HistoricalDataPoint :=
  let values := jsSplit ',' line
  if values.length > max timeIndex valueIndex then
    match jsDateParse (values.getD timeIndex ""), jsParseFloat (values.getD valueIndex "") with
    | some dateMs, some value =>
        some { date := dateMs
               original_timestamp := toISOString dateMs
               sensor_id := sensorMeasurementId
               kindKey := sensorType
               value := value }
    | _, _ => none
  else none

/-- The data-row loop of `parseInfluxCSV`, appending accepted rows in order. -/
def collectPoints (timeIndex valueIndex : Nat) (sensorType sensorMeasurementId : String) :
    List String → List HistoricalDataPoint
  | [] => []
  | line :: rest =>
    match parseCSVRow timeIndex valueIndex sensorType sensorMeasurementId line with
    | some p => p :: collectPoints timeIndex valueIndex sensorType sensorMeasurementId rest
    | none => collectPoints timeIndex valueIndex sensorType sensorMeasurementId rest

/-- Embedding of `parseInfluxCSV(csvText, sensorType, sensorMeasurementId)`. -/
def parseInfluxCSV (csvText : String) (sensorType sensorMeasurementId : String) :
    List HistoricalDataPoint :=
  let lines := csvLines csvText
  if lines.length < 2 then []
  else
    match findHeaderIndex lines with
    | none => []
    | some headerLineIndex =>
      let headers := jsSplit ',' (lines.getD headerLineIndex "")
      match jsIndexOf headers "_time", jsIndexOf headers "_value" with
      | some timeIndex, some valueIndex =>
          collectPoints timeIndex valueIndex sensorType sensorMeasurementId
            (lines.drop (headerLineIndex + 1))
      | _, _ => []

/-! ## LiveSnapshotAggregator: the `client.on('message')` handler
(src/unnamed/part_000, lines 158-184) -/

/-- The decoded JSON payload of an inbound MQTT message.  `fields := none`
models an absent (or `null`) `fields` member; `some []` models a present but
empty map.  `timestamp := none` models an absent or non-numeric `timestamp`
(the handler checks `typeof rawPayload.timestamp !== 'number'`); numeric
timestamps are modelled as integer Unix seconds.  `name := none` models an
absent `name`.  The unused `tags` member is omitted. -/
structure RawMqttPayload where
  name : Option String
  fields : Option (List (String × JsVal))
  timestamp : Option Int
deriving DecidableEq, Repr

/-- The live snapshot: the single JavaScript object held in the `liveData`
state, modelled as a string-keyed record.  Provenance metadata lives at the
keys `last_updated_timestamp`, `last_updated_sensor_id` and
`raw_message_name`, exactly as in the source object. -/
def LiveSnapshot : Type := String → Option JsVal

/-- The initial (empty) live snapshot (`liveData` starts as `null`, and the
handler spreads `prevLiveData || {}`). -/
def emptyLiveData : LiveSnapshot := fun _ => none

/-- JavaScript property assignment `obj[k] = v` on the record model. -/
def objSet (snap : LiveSnapshot) (k : String) (v : Option JsVal) : LiveSnapshot :=
  fun q => if q = k then v else snap q

/-- The `Object.entries(fields).forEach` loop: write every field whose key the
inclusion filter does not mark `false`. -/
def applyFields (sensorTypeFilters : String → Option Bool) (snap : LiveSnapshot)
    (fields : List (String × JsVal)) : LiveSnapshot :=
  fields.foldl
    (fun s kv => if sensorTypeFilters kv.1 = some false then s else objSet s kv.1 (some kv.2))
    snap

/-- The validation guard of the message handler (negation of the early
`return` condition): a present `fields` member, a numeric `timestamp`, and a
truthy `name` or a truthy third topic path segment. -/
def messageAccepted (topic : String) (p : RawMqttPayload) : Bool :=
  p.fields.isSome && p.timestamp.isSome &&
    (truthyOptStr p.name || truthyOptStr ((jsSplit '/' topic).get? 2))

/-- Embedding of the `client.on('message')` handler acting on the snapshot.
`raw := none` models a payload on which `JSON.parse` throws (the handler
swallows the error and leaves the snapshot unchanged). -/
def handleMqttMessage (sensorTypeFilters : String → Option Bool) (topic : String)
    (raw : Option RawMqttPayload) (prev : LiveSnapshot) : LiveSnapshot :=
  match raw with
  | none => prev
  | some p =>
    if !p.fields.isSome || !p.timestamp.isSome ||
        (!truthyOptStr p.name && !truthyOptStr ((jsSplit '/' topic).get? 2)) then prev
    else
      let topicParts := jsSplit '/' topic
      let effectiveSensorId :=
        if truthyOptStr p.name then p.name.getD ""
        else if topicParts.length > 2 then topicParts.getD 2 "" else "unknown_sensor"
      let messageTimestampMs : Int := p.timestamp.getD 0 * 1000
      let s1 := objSet prev "last_updated_timestamp"
        (some (.str (toISOString messageTimestampMs)))
      let s2 := objSet s1 "last_updated_sensor_id" (some (.str effectiveSensorId))
      let s3 := objSet s2 "raw_message_name" (p.name.map .str)
      applyFields sensorTypeFilters s3 (p.fields.getD [])

/-- The application's per-field inclusion filter: the `sensorTypeFilters`
state is created as `{}` and never mutated, so every lookup is `undefined`. -/
def sensorTypeFilters : String → Option Bool := fun _ => none

/-- Processing a sequence of (topic, decoded payload) messages in delivery
order, as the MQTT client does. -/
def processMessages (msgs : List (String × RawMqttPayload)) (snap : LiveSnapshot) :
    LiveSnapshot :=
  msgs.foldl (fun s m => handleMqttMessage sensorTypeFilters m.1 (some m.2) s) snap

/-- First-defined-wins choice: `a` when present, else the default `b`. -/
def orDefault (a b : Option JsVal) : Option JsVal :=
  match a with
  | some v => some v
  | none => b

/-- Specification-side value: the last value listed for key `k` in a fields
map (a later entry for the same key overwrites an earlier one). -/
def lastFieldValue (k : String) : List (String × JsVal) → Option JsVal
  | [] => none
  | kv :: rest => orDefault (lastFieldValue k rest) (if kv.1 = k then some kv.2 else none)

/-- Specification-side value: the value of field `k` in the most recently
processed message of `msgs` that carries `k` (`none` when no message does). -/
def specLastCarriedValue (k : String) : List (String × RawMqttPayload) → Option JsVal
  | [] => none
  | m :: rest => orDefault (specLastCarriedValue k rest) (lastFieldValue k (m.2.fields.getD []))

/-- The three snapshot keys the handler overwrites with provenance metadata
on every accepted message. -/
def provenanceKeys : List String :=
  ["last_updated_timestamp", "last_updated_sensor_id", "raw_message_name"]

/-! ## TimeFormatter (src/unnamed/part_000, lines 76-110) -/

/-- Embedding of `formatDateToDDMMYY` on a valid date (integer milliseconds;
an invalid date, which yields the string `"Invalid Date"`, corresponds to a
failed `jsDateParse` at the call boundary).  Calendar fields are taken in
UTC. -/
def formatDateToDDMMYY (ms : Int) : String :=
  let ymd := civilFromDays (ms.fdiv 86400000)
  pad2 ymd.2.2.toNat ++ "." ++ pad2 ymd.2.1.toNat ++ "." ++ jsSliceNeg2 (toString ymd.1)

/-- Embedding of `formatRelativeTime`, with `now` and the parsed past instant
given as integer milliseconds.  `Math.round(d / 1000)` on an integer
millisecond difference `d` equals `⌊(d + 500) / 1000⌋`. -/
def formatRelativeTime (nowMs pastMs : Int) : String :=
  let secondsAgo : Int := (nowMs - pastMs + 500).fdiv 1000
  if secondsAgo < 60 then "just now"
  else
    let minutesAgo := secondsAgo.fdiv 60
    if minutesAgo < 60 then
      toString minutesAgo ++ " minute" ++ (if minutesAgo = 1 then "" else "s") ++ " ago"
    else
      let hoursAgo := minutesAgo.fdiv 60
      if hoursAgo < 24 then
        toString hoursAgo ++ " hour" ++ (if hoursAgo = 1 then "" else "s") ++ " ago"
      else
        let daysAgo := hoursAgo.fdiv 24
        if daysAgo < 7 then
          toString daysAgo ++ " day" ++ (if daysAgo = 1 then "" else "s") ++ " ago"
        else "on " ++ formatDateToDDMMYY pastMs

/-! ## Constants (src/src/constants.ts) and the `SensorType` object
(src/src/types.ts, lines 48-56) -/

/-- The `SensorType` const object: property access by member name.  Access to
a member that is not one of the six declared keys yields `undefined`
(`none`). -/
def SensorTypeObj : String → Option String
  | "RESISTANCE" => some "resistance"
  | "TEMP_WOOD" => some "temperature_wood"
  | "SOIL_MOISTURE" => some "soil_moisture"
  | "TEMP_AIR" => some "temperature_air"
  | "HUMIDITY_AIR" => some "humidity_air"
  | "BATTERY" => some "battery"
  | _ => none

/-- `SENSOR_TYPE_TO_INFLUX_FIELD`: backing InfluxDB field name per sensor
type value; lookup with any other key yields `undefined`. -/
def SENSOR_TYPE_TO_INFLUX_FIELD : String → Option String
  | "resistance" => some "resistance"
  | "temperature_wood" => some "temperature"
  | "soil_moisture" => some "soil_moisture"
  | "temperature_air" => some "temperature_air"
  | "humidity_air" => some "humidity_air"
  | "battery" => some "battery"
  | _ => none

/-- `SENSOR_TYPE_LABELS`: display label per sensor type value. -/
def SENSOR_TYPE_LABELS : String → Option String
  | "resistance" => some "Wood Resistance (kΩ)"
  | "temperature_wood" => some "Wood Temperature (°C)"
  | "soil_moisture" => some "Soil Moisture (%)"
  | "temperature_air" => some "Air Temperature (°C)"
  | "humidity_air" => some "Air Humidity (%)"
  | "battery" => some "Battery (V)"
  | _ => none

/-- The initial value of the `selectedSensorForChart` state
(src/unnamed/part_000, line 125): `useState<SensorType>(SensorType.STRESS)`. -/
def selectedSensorForChart_initial : Option String := SensorTypeObj "STRESS"

/-! ## HistoricalQueryClient: `fetchHistoricalData`
(src/unnamed/part_000, lines 230-273) -/

/-- The three pieces of React state touched by the historical fetch. -/
structure HistState where
  influxHistoricalData : List HistoricalDataPoint
  isHistoricalDataLoading : Bool
  historicalDataError : Option String
deriving DecidableEq, Repr

/-- The state before any fetch. -/
def initialHistState : HistState :=
  { influxHistoricalData := [], isHistoricalDataLoading := false, historicalDataError := none }

/-- An issued (in-flight) historical query, carrying the closure values the
`await`-continuation of `fetchHistoricalData` uses. -/
structure FetchRequest where
  sensorMeasurementId : String
  sensorType : String
  influxField : String
deriving DecidableEq, Repr

/-- Outcome of the `fetch` round-trip: a successful response body, a non-ok
HTTP status (with status text and error body), or a network failure. -/
inductive FetchOutcome where
  | ok (csvData : String)
  | httpError (status : Nat) (statusText : String) (body : String)
  | networkError (message : String)
deriving DecidableEq, Repr

/-- The synchronous prefix of `fetchHistoricalData(sensorMeasurementId,
sensorType)` up to the `await fetch`: guard checks, state writes, and the
request it issues (`none` when no network call is made).  `sensorType` is
`Option String` because the call site can pass the `undefined` initial
selection; the label interpolated into the configuration error is then the
string `"undefined"`. -/
def fetchHistoricalData (sensorMeasurementId : String) (sensorType : Option String)
    (st : HistState) : HistState × Option FetchRequest :=
  if sensorMeasurementId = "" then
    ({ st with influxHistoricalData := [],
               historicalDataError := some "No active sensor ID to fetch data for." }, none)
  else
    match sensorType.bind SENSOR_TYPE_TO_INFLUX_FIELD with
    | none =>
      ({ st with influxHistoricalData := [],
                 historicalDataError := some ("Configuration error: No InfluxDB field mapping for "
                   ++ jsShow (sensorType.bind SENSOR_TYPE_LABELS)) }, none)
    | some influxField =>
      ({ st with isHistoricalDataLoading := true, historicalDataError := none },
       some { sensorMeasurementId := sensorMeasurementId,
              sensorType := sensorType.getD "undefined",
              influxField := influxField })

/-- The `await`-continuation of `fetchHistoricalData` for request `r`: on a
successful response the parsed CSV replaces the historical data; on a non-ok
status or network failure the `catch` block stores the error message and
clears the data; `finally` always clears the loading flag. -/
def resolveFetch (r : FetchRequest) (o : FetchOutcome) (st : HistState) : HistState :=
  match o with
  | .ok csvData =>
    { st with influxHistoricalData := parseInfluxCSV csvData r.sensorType r.sensorMeasurementId,
              isHistoricalDataLoading := false }
  | .httpError status statusText body =>
    { st with historicalDataError := some ("InfluxDB query failed: " ++ toString status ++ " "
                ++ statusText ++ ". " ++ body),
              influxHistoricalData := [],
              isHistoricalDataLoading := false }
  | .networkError message =>
    { st with historicalDataError := some message,
              influxHistoricalData := [],
              isHistoricalDataLoading := false }

/-- One interleaving event of the historical-query race: issuing a fetch, or
the asynchronous resolution of a previously issued request. -/
inductive HistEvent where
  | issue (sensorMeasurementId : String) (sensorType : Option String)
  | resolve (r : FetchRequest) (o : FetchOutcome)
deriving DecidableEq, Repr

/-- The fetch state together with the set of issued, not yet resolved
requests. -/
structure HistRunState where
  hist : HistState
  pending : List FetchRequest
deriving DecidableEq, Repr

/-- The state before any event. -/
def initialHistRun : HistRunState := { hist := initialHistState, pending := [] }

/-- One event of the single-threaded interleaving: an issue runs the
synchronous prefix and records the request; a resolution of an outstanding
request runs the continuation (a resolve of a request that was never issued
is a no-op). -/
def histStep (s : HistRunState) : HistEvent → HistRunState
  | .issue sensorMeasurementId sensorType =>
    let hr := fetchHistoricalData sensorMeasurementId sensorType s.hist
    { hist := hr.1, pending := s.pending ++ hr.2.toList }
  | .resolve r o =>
    if r ∈ s.pending then
      { hist := resolveFetch r o s.hist, pending := s.pending.erase r }
    else s

/-- A trace of issue/resolve events applied in order. -/
def runHistEvents (events : List HistEvent) (s : HistRunState) : HistRunState :=
  events.foldl histStep s

/-! ## RefreshScheduler: the auto-update effect
(src/unnamed/part_000, lines 285-301) -/

/-- The timer bookkeeping of the auto-update effect: the
`autoUpdateIntervalRef` ref, the set of armed (not yet cleared) interval
timers in the environment, and a fresh-id counter. -/
structure SchedulerState where
  autoUpdateIntervalRef : Option Nat
  liveTimers : List Nat
  nextTimer : Nat
deriving DecidableEq, Repr

/-- The scheduler state before the effect has ever run. -/
def initialSchedulerState : SchedulerState :=
  { autoUpdateIntervalRef := none, liveTimers := [], nextTimer := 0 }

/-- The disarm block (run both by the effect body and by its cleanup):
`clearInterval(autoUpdateIntervalRef.current)` followed by resetting the ref
to `null`, when the ref is set. -/
def clearAutoUpdateInterval (s : SchedulerState) : SchedulerState :=
  match s.autoUpdateIntervalRef with
  | some id => { s with autoUpdateIntervalRef := none, liveTimers := s.liveTimers.erase id }
  | none => s

/-- The dependencies of the auto-update effect. -/
structure RefreshConfig where
  autoUpdateHistoricalData : Bool
  activeSensorIdForChart : Option String
  selectedSensorForChart : Option String
deriving DecidableEq, Repr

/-- The arming condition
`autoUpdateHistoricalData && activeSensorIdForChart && selectedSensorForChart`. -/
def refreshCondition (c : RefreshConfig) : Bool :=
  c.autoUpdateHistoricalData && truthyOptStr c.activeSensorIdForChart
    && truthyOptStr c.selectedSensorForChart

/-- The effect body: disarm any existing timer, then arm a fresh
`setInterval` when the condition holds. -/
def autoUpdateEffectBody (c : RefreshConfig) (s : SchedulerState) : SchedulerState :=
  let s1 := clearAutoUpdateInterval s
  if refreshCondition c then
    { autoUpdateIntervalRef := some s1.nextTimer,
      liveTimers := s1.liveTimers ++ [s1.nextTimer],
      nextTimer := s1.nextTimer + 1 }
  else s1

/-- One dependency change as React executes it: the previous effect's cleanup
(which also disarms), then the new effect body. -/
def autoUpdateEffectRun (c : RefreshConfig) (s : SchedulerState) : SchedulerState :=
  autoUpdateEffectBody c (clearAutoUpdateInterval s)

/-- A sequence of dependency changes applied in order. -/
def runScheduler (cfgs : List RefreshConfig) (s : SchedulerState) : SchedulerState :=
  cfgs.foldl (fun s c => autoUpdateEffectRun c s) s

/-! ## Specification-side definitions for the parser refinement -/

/-- Specification-side acceptance predicate for a data row (spec section 4.4):
the row has enough columns, a parseable timestamp, and a parseable numeric
value. -/
def specRowAccepted (timeIndex valueIndex : Nat) (line : String) : Bool :=
  let cols := jsSplit ',' line
  decide (cols.length > max timeIndex valueIndex) &&
    (jsDateParse (cols.getD timeIndex "")).isSome &&
    (jsParseFloat (cols.getD valueIndex "")).isSome

/-- Specification-side point built from an accepted row (claim C4 as amended):
the parsed date, the ISO-8601 re-serialization of that parsed date, the
supplied sensor id, and the value keyed under the supplied measurement
kind. -/
def specRowPoint (timeIndex valueIndex : Nat) (kind sid : String) (line : String) :
    HistoricalDataPoint :=
  let cols := jsSplit ',' line
  let dateMs := (jsDateParse (cols.getD timeIndex "")).getD 0
  { date := dateMs
    original_timestamp := toISOString dateMs
    sensor_id := sid
    kindKey := kind
    value := (jsParseFloat (cols.getD valueIndex "")).getD 0 }

/-! ## Concrete scenarios used by counterexamples and witnesses -/

/-- Interleaving in which a second query (different sensor id) is issued
while the first is in flight, and the first resolves last. -/
def c1Trace : List HistEvent :=
  [.issue "sensor-A" (some "resistance"),
   .issue "sensor-B" (some "resistance"),
   .resolve { sensorMeasurementId := "sensor-B", sensorType := "resistance",
              influxField := "resistance" } (.ok "_time,_value\n2024-01-02T00:00:00Z,2"),
   .resolve { sensorMeasurementId := "sensor-A", sensorType := "resistance",
              influxField := "resistance" } (.ok "_time,_value\n2024-01-01T00:00:00Z,1")]

/-- Two valid messages: the first carries a payload field named like the
provenance key `last_updated_sensor_id`; the second does not carry it. -/
def c3Msgs : List (String × RawMqttPayload) :=
  [("mapfeed/thws-trees/d1",
    { name := some "A", fields := some [("last_updated_sensor_id", .str "X")],
      timestamp := some 1 }),
   ("mapfeed/thws-trees/d1",
    { name := some "B", fields := some [("resistance", .num 1)], timestamp := some 2 })]

/-- Two valid messages carrying ordinary measurement fields. -/
def c3WitnessMsgs : List (String × RawMqttPayload) :=
  [("mapfeed/thws-trees/d2",
    { name := some "A", fields := some [("resistance", .num 1), ("battery", .num 4)],
      timestamp := some 10 }),
   ("mapfeed/thws-trees/d2",
    { name := some "A", fields := some [("resistance", .num 2)], timestamp := some 11 })]


/-! ## Lemmas about the tabular parser -/

/-- The data-row body agrees with the specification-side row description. -/
theorem parseCSVRow_eq_spec (timeIndex valueIndex : Nat) (kind sid line : String) :
    parseCSVRow timeIndex valueIndex kind sid line
      = if specRowAccepted timeIndex valueIndex line then
          some (specRowPoint timeIndex valueIndex kind sid line)
        else none := by
  unfold parseCSVRow specRowAccepted specRowPoint
  simp only [List.getD]
  by_cases hlen : (jsSplit ',' line).length > max timeIndex valueIndex
  · cases hd : jsDateParse ((jsSplit ',' line)[timeIndex]?.getD "") <;>
      cases hv : jsParseFloat ((jsSplit ',' line)[valueIndex]?.getD "") <;>
        simp [hlen, hd, hv]
  · simp [hlen]

/-- The row loop keeps exactly the accepted rows, in input order, each mapped
to its specification-side point. -/
theorem collectPoints_eq_spec (timeIndex valueIndex : Nat) (kind sid : String)
    (rows : List String) :
    collectPoints timeIndex valueIndex kind sid rows
      = (rows.filter (specRowAccepted timeIndex valueIndex)).map
          (specRowPoint timeIndex valueIndex kind sid) := by
  induction rows with
  | nil => rfl
  | cons line rest ih =>
    by_cases h : specRowAccepted timeIndex valueIndex line <;>
      simp [collectPoints, parseCSVRow_eq_spec, h, ih, List.filter]

/-- Claim C4 is false as stated: the parser stores `date.toISOString()`, the
normalized re-serialization of the parsed date, not the original timestamp
string of the row.  For the row `2024-01-01T00:00:00Z,12.5` the stored
`original_timestamp` is `"2024-01-01T00:00:00.000Z"`, which differs from the
row's own string `"2024-01-01T00:00:00Z"`. -/
theorem c4_counterexample :
    (parseInfluxCSV "#datatype,string\n_time,_value\n2024-01-01T00:00:00Z,12.5"
        "battery" "tree-7").map (fun p => p.original_timestamp)
      = ["2024-01-01T00:00:00.000Z"]
    ∧ jsSplit ',' "2024-01-01T00:00:00Z,12.5" = ["2024-01-01T00:00:00Z", "12.5"]
    ∧ ("2024-01-01T00:00:00.000Z" : String) ≠ "2024-01-01T00:00:00Z" := by decide

/-- Claim C4 (amended): when a header line with `_time` and `_value` columns
is found, every accepted data row becomes exactly one point carrying the
row's parsed timestamp and its ISO-8601 re-serialization (not the original
row string), the supplied sensor id, and the value keyed under the supplied
measurement kind; output order matches input row order with no sorting or
deduplication. -/
theorem c4_parse_refinement (csvText kind sid : String)
    (headerLineIndex timeIndex valueIndex : Nat)
    (h2 : 2 ≤ (csvLines csvText).length)
    (hh : findHeaderIndex (csvLines csvText) = some headerLineIndex)
    (ht : jsIndexOf (jsSplit ',' ((csvLines csvText).getD headerLineIndex "")) "_time"
            = some timeIndex)
    (hv : jsIndexOf (jsSplit ',' ((csvLines csvText).getD headerLineIndex "")) "_value"
            = some valueIndex) :
    parseInfluxCSV csvText kind sid
      = (((csvLines csvText).drop (headerLineIndex + 1)).filter
            (specRowAccepted timeIndex valueIndex)).map
          (specRowPoint timeIndex valueIndex kind sid) := by
  simp only [parseInfluxCSV]
  rw [if_neg (by omega), hh]
  simp only [ht, hv]
  exact collectPoints_eq_spec timeIndex valueIndex kind sid _

/-- Witness for `c4_parse_refinement` at a concrete response. -/
theorem c4_parse_refinement_witness :
    parseInfluxCSV "#x\n_time,_value\n2024-03-05T06:07:08Z,4.25" "soil_moisture" "tree-9"
      = (((csvLines "#x\n_time,_value\n2024-03-05T06:07:08Z,4.25").drop 2).filter
            (specRowAccepted 0 1)).map (specRowPoint 0 1 "soil_moisture" "tree-9") :=
  c4_parse_refinement _ _ _ 1 0 1 (by decide) (by decide) (by decide) (by decide)

/-- Claim C7: the tabular input with two comment lines, the header
`_time,_value` and the data line `2024-01-01T00:00:00Z,12.5` parses to
exactly one point whose timestamp denotes the instant 2024-01-01T00:00:00Z
(1704067200000 ms since the epoch) and whose value is 12.5. -/
theorem c7_two_comment_example (sensorType sensorMeasurementId : String) :
    parseInfluxCSV "#comment\n#comment\n_time,_value\n2024-01-01T00:00:00Z,12.5"
        sensorType sensorMeasurementId
      = [{ date := 1704067200000, original_timestamp := "2024-01-01T00:00:00.000Z",
           sensor_id := sensorMeasurementId, kindKey := sensorType, value := mkRat 25 2 }]
    ∧ jsDateParse "2024-01-01T00:00:00Z" = some 1704067200000 := ⟨rfl, rfl⟩

/-- Claim C8: a data row with too few columns, an unparseable timestamp, or
an unparseable numeric value is skipped without aborting the parse; in the
concrete input the row with the non-numeric value `oops` yields no point
while the following valid row is still included. -/
theorem c8_bad_rows_skipped :
    (∀ (timeIndex valueIndex : Nat) (kind sid : String) (pre post : List String) (bad : String),
        specRowAccepted timeIndex valueIndex bad = false →
        collectPoints timeIndex valueIndex kind sid (pre ++ bad :: post)
          = collectPoints timeIndex valueIndex kind sid (pre ++ post))
    ∧ parseInfluxCSV
        "#group,false\n_time,_value\n2024-02-01T00:00:00Z,oops\n2024-02-02T00:00:00Z,3.5"
        "temperature_air" "tree-3"
      = [{ date := 1706832000000, original_timestamp := "2024-02-02T00:00:00.000Z",
           sensor_id := "tree-3", kindKey := "temperature_air", value := mkRat 7 2 }] := by
  constructor
  · intro timeIndex valueIndex kind sid pre post bad hbad
    induction pre with
    | nil => simp [collectPoints, parseCSVRow_eq_spec, hbad]
    | cons l rest ih =>
      cases hl : parseCSVRow timeIndex valueIndex kind sid l <;>
        simp [collectPoints, hl, ih]
  · decide

/-- Witness for the universally quantified part of `c8_bad_rows_skipped`. -/
theorem c8_bad_rows_skipped_witness :
    collectPoints 0 1 "battery" "t1"
        ([] ++ "2024-01-01T00:00:00Z,zzz" :: ["2024-01-02T00:00:00Z,1.5"])
      = collectPoints 0 1 "battery" "t1" ([] ++ ["2024-01-02T00:00:00Z,1.5"]) :=
  c8_bad_rows_skipped.1 0 1 "battery" "t1" [] ["2024-01-02T00:00:00Z,1.5"]
    "2024-01-01T00:00:00Z,zzz" (by decide)

/-- Claim C9: relative-time formatting maps an age of 45 seconds to
`"just now"`, 90 seconds to `"1 minute ago"`, 3700 seconds to
`"1 hour ago"`, and 8 days to the calendar-date form
`"on DD.MM.YY"` rather than a relative phrase. -/
theorem c9_relative_time_formatting (p45 p90 p3700 p8d : Int) :
    formatRelativeTime (p45 + 45000) p45 = "just now"
    ∧ formatRelativeTime (p90 + 90000) p90 = "1 minute ago"
    ∧ formatRelativeTime (p3700 + 3700000) p3700 = "1 hour ago"
    ∧ formatRelativeTime (p8d + 691200000) p8d = "on " ++ formatDateToDDMMYY p8d := by
  refine ⟨?_, ?_, ?_, ?_⟩
  · simp only [formatRelativeTime]
    rw [show p45 + 45000 - p45 + 500 = (45500 : Int) from by ring,
        if_pos (by decide : ((45500 : Int)).fdiv 1000 < 60)]
  · simp only [formatRelativeTime]
    rw [show p90 + 90000 - p90 + 500 = (90500 : Int) from by ring,
        if_neg (by decide : ¬((90500 : Int)).fdiv 1000 < 60),
        if_pos (by decide : (((90500 : Int)).fdiv 1000).fdiv 60 < 60)]
    decide
  · simp only [formatRelativeTime]
    rw [show p3700 + 3700000 - p3700 + 500 = (3700500 : Int) from by ring,
        if_neg (by decide : ¬((3700500 : Int)).fdiv 1000 < 60),
        if_neg (by decide : ¬(((3700500 : Int)).fdiv 1000).fdiv 60 < 60),
        if_pos (by decide : ((((3700500 : Int)).fdiv 1000).fdiv 60).fdiv 60 < 24)]
    decide
  · simp only [formatRelativeTime]
    rw [show p8d + 691200000 - p8d + 500 = (691200500 : Int) from by ring,
        if_neg (by decide : ¬((691200500 : Int)).fdiv 1000 < 60),
        if_neg (by decide : ¬(((691200500 : Int)).fdiv 1000).fdiv 60 < 60),
        if_neg (by decide : ¬((((691200500 : Int)).fdiv 1000).fdiv 60).fdiv 60 < 24),
        if_neg (by decide : ¬(((((691200500 : Int)).fdiv 1000).fdiv 60).fdiv 60).fdiv 24 < 7)]

/-! ## Lemmas about the refresh scheduler -/

/-- The bookkeeping invariant: the armed timers are exactly the content of
the ref. -/
def schedInv (s : SchedulerState) : Prop :=
  s.liveTimers = s.autoUpdateIntervalRef.toList

/-- Disarming a state satisfying the invariant leaves no ref and no armed
timer. -/
theorem clear_of_inv {s : SchedulerState} (h : schedInv s) :
    clearAutoUpdateInterval s
      = { autoUpdateIntervalRef := none, liveTimers := [], nextTimer := s.nextTimer } := by
  obtain ⟨r, l, n⟩ := s
  cases r <;> simp_all [schedInv, clearAutoUpdateInterval, Option.toList, List.erase]

/-- The result of one effect run from a state satisfying the invariant. -/
theorem effectRun_result {s : SchedulerState} (h : schedInv s) (c : RefreshConfig) :
    autoUpdateEffectRun c s
      = if refreshCondition c then
          { autoUpdateIntervalRef := some s.nextTimer, liveTimers := [s.nextTimer],
            nextTimer := s.nextTimer + 1 }
        else { autoUpdateIntervalRef := none, liveTimers := [], nextTimer := s.nextTimer } := by
  unfold autoUpdateEffectRun autoUpdateEffectBody
  rw [clear_of_inv h]
  by_cases hc : refreshCondition c <;> simp [hc, clearAutoUpdateInterval]

/-- One effect run preserves the invariant. -/
theorem effectRun_inv {s : SchedulerState} (h : schedInv s) (c : RefreshConfig) :
    schedInv (autoUpdateEffectRun c s) := by
  rw [effectRun_result h]
  by_cases hc : refreshCondition c <;> simp [hc, schedInv]

/-- Every state reachable from the initial state satisfies the invariant. -/
theorem runScheduler_inv (cfgs : List RefreshConfig) :
    schedInv (runScheduler cfgs initialSchedulerState) := by
  have general : ∀ (cfgs : List RefreshConfig) (s : SchedulerState), schedInv s →
      schedInv (runScheduler cfgs s) := by
    intro cfgs
    induction cfgs with
    | nil => intro s h; exact h
    | cons c rest ih => intro s h; exact ih _ (effectRun_inv h c)
  exact general cfgs _ (by simp [schedInv, initialSchedulerState])

/-- Claim C5: the auto-update effect disarms any existing timer before
re-evaluating, so at most one refresh timer is armed after any sequence of
dependency changes; toggling auto-refresh off then on with the
(sensor id, measurement kind) pair unchanged leaves exactly one armed timer;
and the cleanup disarms unconditionally. -/
theorem c5_scheduler_single_timer :
    (∀ cfgs : List RefreshConfig,
        (runScheduler cfgs initialSchedulerState).liveTimers.length ≤ 1)
    ∧ (∀ (cfgs : List RefreshConfig) (c : RefreshConfig),
        c.autoUpdateHistoricalData = true →
        truthyOptStr c.activeSensorIdForChart = true →
        truthyOptStr c.selectedSensorForChart = true →
        (autoUpdateEffectRun c
            (autoUpdateEffectRun { c with autoUpdateHistoricalData := false }
              (runScheduler cfgs initialSchedulerState))).liveTimers.length = 1)
    ∧ (∀ cfgs : List RefreshConfig,
        (clearAutoUpdateInterval (runScheduler cfgs initialSchedulerState)).liveTimers = []
        ∧ (clearAutoUpdateInterval
            (runScheduler cfgs initialSchedulerState)).autoUpdateIntervalRef = none) := by
  refine ⟨?_, ?_, ?_⟩
  · intro cfgs
    have h := runScheduler_inv cfgs
    rw [h]
    cases (runScheduler cfgs initialSchedulerState).autoUpdateIntervalRef <;>
      simp [Option.toList]
  · intro cfgs c hen hid hkind
    have h := runScheduler_inv cfgs
    have hoff : refreshCondition { c with autoUpdateHistoricalData := false } = false := by
      simp [refreshCondition]
    have hon : refreshCondition c = true := by
      simp [refreshCondition, hen, hid, hkind]
    rw [effectRun_result h, hoff]
    simp only [Bool.false_eq_true, if_false]
    rw [effectRun_result (by simp [schedInv]), hon]
    simp
  · intro cfgs
    rw [clear_of_inv (runScheduler_inv cfgs)]
    exact ⟨rfl, rfl⟩

/-- Witness for `c5_scheduler_single_timer` at a concrete configuration. -/
theorem c5_scheduler_single_timer_witness :
    (autoUpdateEffectRun
        { autoUpdateHistoricalData := true, activeSensorIdForChart := some "tree-1",
          selectedSensorForChart := some "battery" }
        (autoUpdateEffectRun
          { autoUpdateHistoricalData := false, activeSensorIdForChart := some "tree-1",
            selectedSensorForChart := some "battery" }
          (runScheduler
            [{ autoUpdateHistoricalData := true, activeSensorIdForChart := some "tree-1",
               selectedSensorForChart := some "battery" }]
            initialSchedulerState))).liveTimers.length = 1 :=
  c5_scheduler_single_timer.2.1
    [{ autoUpdateHistoricalData := true, activeSensorIdForChart := some "tree-1",
       selectedSensorForChart := some "battery" }]
    { autoUpdateHistoricalData := true, activeSensorIdForChart := some "tree-1",
      selectedSensorForChart := some "battery" } rfl (by decide) (by decide)

/-- Claim C6: a historical fetch with an empty sensor id, or with a
measurement kind that has no backing field mapping, fails fast: it stores a
configuration-level error string, leaves the historical result empty, and
issues no network request. -/
theorem c6_fetch_fail_fast :
    (∀ (st : HistState) (sensorType : Option String),
        fetchHistoricalData "" sensorType st
          = ({ st with influxHistoricalData := [],
                       historicalDataError := some "No active sensor ID to fetch data for." },
             none))
    ∧ (∀ (st : HistState) (sensorMeasurementId : String) (sensorType : Option String),
        sensorMeasurementId ≠ "" →
        sensorType.bind SENSOR_TYPE_TO_INFLUX_FIELD = none →
        fetchHistoricalData sensorMeasurementId sensorType st
          = ({ st with influxHistoricalData := [],
                       historicalDataError :=
                         some ("Configuration error: No InfluxDB field mapping for "
                           ++ jsShow (sensorType.bind SENSOR_TYPE_LABELS)) },
             none)) := by
  constructor
  · intro st sensorType
    unfold fetchHistoricalData
    rw [if_pos rfl]
  · intro st sensorMeasurementId sensorType hid hmap
    unfold fetchHistoricalData
    rw [if_neg hid, hmap]

/-- Witness for `c6_fetch_fail_fast` with a sensor-type string outside the
mapping. -/
theorem c6_fetch_fail_fast_witness :
    fetchHistoricalData "tree-2" (some "stress") initialHistState
      = ({ initialHistState with
             influxHistoricalData := [],
             historicalDataError :=
               some ("Configuration error: No InfluxDB field mapping for "
                 ++ jsShow ((some "stress").bind SENSOR_TYPE_LABELS)) },
         none) :=
  c6_fetch_fail_fast.2 initialHistState "tree-2" (some "stress") (by decide) rfl

/-- Claim C10: the initial chart selection is `SensorType.STRESS`, which is
not a member of the six-key `SensorType` object, so the property access
yields `undefined`; a historical fetch invoked with this initial selection
and any non-empty sensor id takes the missing-field-mapping branch: it
stores the configuration error (with the label interpolating as the string
`"undefined"`), keeps the historical result empty, and issues no network
request. -/
theorem c10_initial_selection_config_error :
    selectedSensorForChart_initial = none
    ∧ (∀ (st : HistState) (sensorMeasurementId : String),
        sensorMeasurementId ≠ "" →
        fetchHistoricalData sensorMeasurementId selectedSensorForChart_initial st
          = ({ st with influxHistoricalData := [],
                       historicalDataError :=
                         some "Configuration error: No InfluxDB field mapping for undefined" },
             none)) := by
  constructor
  · rfl
  · intro st sensorMeasurementId hid
    have h0 : selectedSensorForChart_initial = none := rfl
    rw [h0]
    unfold fetchHistoricalData
    rw [if_neg hid]
    rfl

/-- Witness for `c10_initial_selection_config_error`. -/
theorem c10_initial_selection_config_error_witness :
    fetchHistoricalData "tree-4" selectedSensorForChart_initial initialHistState
      = ({ initialHistState with
             influxHistoricalData := [],
             historicalDataError :=
               some "Configuration error: No InfluxDB field mapping for undefined" },
         none) :=
  c10_initial_selection_config_error.2 initialHistState "tree-4" (by decide)

/-- Claim C1 is false as stated: the fetch continuation stores its parsed
result unconditionally, so a response resolving after a newer request (for a
different sensor id) has been issued is NOT discarded.  In the concrete
interleaving `c1Trace` the stored result is the one produced by the
superseded request for `sensor-A`, not by the most recently issued request
for `sensor-B`. -/
theorem c1_counterexample :
    (runHistEvents c1Trace initialHistRun).hist.influxHistoricalData
      = parseInfluxCSV "_time,_value\n2024-01-01T00:00:00Z,1" "resistance" "sensor-A"
    ∧ (runHistEvents c1Trace initialHistRun).hist.influxHistoricalData.map
        (fun p => p.sensor_id) = ["sensor-A"]
    ∧ parseInfluxCSV "_time,_value\n2024-01-01T00:00:00Z,1" "resistance" "sensor-A"
      ≠ parseInfluxCSV "_time,_value\n2024-01-02T00:00:00Z,2" "resistance" "sensor-B" := by
  refine ⟨by decide, by decide, by decide⟩

/-- Claim C1 (amended): the consumer applies a last-resolution-wins
discipline, not last-writer-wins-by-issue-order: whenever an outstanding
request resolves successfully, its parsed result becomes the stored
historical result — regardless of any newer request issued in the meantime,
so a stale response can overwrite the result of a newer request. -/
theorem c1_last_resolution_wins (events : List HistEvent) (r : FetchRequest)
    (csvData : String) (h : r ∈ (runHistEvents events initialHistRun).pending) :
    (runHistEvents (events ++ [.resolve r (.ok csvData)]) initialHistRun).hist.influxHistoricalData
      = parseInfluxCSV csvData r.sensorType r.sensorMeasurementId := by
  unfold runHistEvents at h ⊢
  rw [List.foldl_append]
  simp [histStep, h, resolveFetch]

/-- Witness for `c1_last_resolution_wins`. -/
theorem c1_last_resolution_wins_witness :
    (runHistEvents
        ([.issue "sensor-C" (some "battery")] ++
          [.resolve { sensorMeasurementId := "sensor-C", sensorType := "battery",
                      influxField := "battery" } (.ok "_time,_value\n2024-01-03T00:00:00Z,7")])
        initialHistRun).hist.influxHistoricalData
      = parseInfluxCSV "_time,_value\n2024-01-03T00:00:00Z,7" "battery" "sensor-C" :=
  c1_last_resolution_wins [.issue "sensor-C" (some "battery")]
    { sensorMeasurementId := "sensor-C", sensorType := "battery", influxField := "battery" }
    "_time,_value\n2024-01-03T00:00:00Z,7" (by decide)

/-! ## Lemmas about the message handler -/

/-- The handler's early-return condition is the Boolean negation of
`messageAccepted`. -/
theorem guard_eq_not_accepted (topic : String) (p : RawMqttPayload) :
    (!p.fields.isSome || !p.timestamp.isSome ||
        (!truthyOptStr p.name && !truthyOptStr ((jsSplit '/' topic).get? 2)))
      = !messageAccepted topic p := by
  unfold messageAccepted
  cases p.fields.isSome <;> cases p.timestamp.isSome <;>
    cases truthyOptStr p.name <;> cases truthyOptStr ((jsSplit '/' topic).get? 2) <;> rfl

/-- `orDefault` with an absent default. -/
theorem orDefault_none_right (a : Option JsVal) : orDefault a none = a := by
  cases a <;> rfl

/-- `orDefault` is associative. -/
theorem orDefault_assoc (a b c : Option JsVal) :
    orDefault a (orDefault b c) = orDefault (orDefault a b) c := by
  cases a <;> cases b <;> rfl

/-- Presence after `orDefault`. -/
theorem orDefault_isSome (a b : Option JsVal) :
    (orDefault a b).isSome = (a.isSome || b.isSome) := by
  cases a <;> cases b <;> rfl

/-- Reading a key after the field loop (with the application's empty filter):
the last value the fields list carries for that key, else the previous
value. -/
theorem applyFields_apply (snap : LiveSnapshot) (fields : List (String × JsVal)) (k : String) :
    applyFields sensorTypeFilters snap fields k
      = orDefault (lastFieldValue k fields) (snap k) := by
  induction fields generalizing snap with
  | nil => rfl
  | cons kv rest ih =>
    have hstep : applyFields sensorTypeFilters snap (kv :: rest)
        = applyFields sensorTypeFilters (objSet snap kv.1 (some kv.2)) rest := rfl
    rw [hstep, ih]
    by_cases hk : kv.1 = k
    · subst hk
      cases hl : lastFieldValue kv.1 rest <;>
        simp [lastFieldValue, objSet, orDefault, hl]
    · cases hl : lastFieldValue k rest <;>
        simp [lastFieldValue, objSet, orDefault, hk, Ne.symm hk, hl]

/-- Reading a non-provenance key after one accepted message: the last value
the message carries for that key, else the previous value. -/
theorem handle_accepted_apply (topic : String) (p : RawMqttPayload) (snap : LiveSnapshot)
    (k : String) (hacc : messageAccepted topic p = true) (hk : k ∉ provenanceKeys) :
    handleMqttMessage sensorTypeFilters topic (some p) snap k
      = orDefault (lastFieldValue k (p.fields.getD [])) (snap k) := by
  have hk1 : k ≠ "last_updated_timestamp" := fun h => hk (by simp [provenanceKeys, h])
  have hk2 : k ≠ "last_updated_sensor_id" := fun h => hk (by simp [provenanceKeys, h])
  have hk3 : k ≠ "raw_message_name" := fun h => hk (by simp [provenanceKeys, h])
  unfold messageAccepted at hacc
  cases h1 : p.fields.isSome <;> cases h2 : p.timestamp.isSome <;>
    cases h3 : truthyOptStr p.name <;>
      cases h4 : truthyOptStr ((jsSplit '/' topic).get? 2) <;>
    simp_all [handleMqttMessage, applyFields_apply, objSet]

/-- Reading a non-provenance key after a valid message sequence: the value of
the most recent message carrying that key, else the initial value (so a
present field is never removed). -/
theorem processMessages_apply (msgs : List (String × RawMqttPayload)) :
    ∀ (snap : LiveSnapshot) (k : String),
      (∀ m ∈ msgs, messageAccepted m.1 m.2 = true) → k ∉ provenanceKeys →
      processMessages msgs snap k = orDefault (specLastCarriedValue k msgs) (snap k) := by
  induction msgs with
  | nil => intro snap k _ _; rfl
  | cons m rest ih =>
    intro snap k hacc hk
    have hstep := handle_accepted_apply m.1 m.2 snap k (hacc m (by simp)) hk
    show processMessages rest (handleMqttMessage sensorTypeFilters m.1 (some m.2) snap) k = _
    rw [ih _ k (fun x hx => hacc x (by simp [hx])) hk, hstep]
    exact orDefault_assoc _ _ _

/-- Presence in `specLastCarriedValue` is carrying the field somewhere in the
sequence. -/
theorem specLastCarriedValue_isSome (k : String) (msgs : List (String × RawMqttPayload)) :
    (specLastCarriedValue k msgs).isSome = true ↔
      ∃ m ∈ msgs, (lastFieldValue k (m.2.fields.getD [])).isSome = true := by
  induction msgs with
  | nil => simp [specLastCarriedValue]
  | cons m rest ih => simp [specLastCarriedValue, orDefault_isSome, ih, or_comm]

/-- Claim C2 is false as stated: a decoded payload whose `fields` map is
present but empty fails the "non-empty fields map" condition, yet the
handler accepts it (the guard only checks `!rawPayload.fields`) and changes
the snapshot: the provenance timestamp is written. -/
theorem c2_counterexample :
    ({ name := some "sensor-1", fields := some [], timestamp := some 5 } : RawMqttPayload).fields
        = some []
    ∧ handleMqttMessage sensorTypeFilters "mapfeed/thws-trees/dev7"
        (some { name := some "sensor-1", fields := some [], timestamp := some 5 })
        emptyLiveData "last_updated_timestamp" = some (.str "1970-01-01T00:00:05.000Z")
    ∧ emptyLiveData "last_updated_timestamp" = none :=
  ⟨rfl, by decide, rfl⟩

/-- Claim C2 (amended): the handler leaves the live snapshot unchanged unless
the decoded payload carries a present (possibly empty) `fields` member, a
numeric `timestamp`, and a resolvable sensor identifier (truthy `name`, else
truthy third topic path segment); a message failing any of these conditions
— or one that fails to decode — causes no state change. -/
theorem c2_rejected_message_leaves_snapshot (filters : String → Option Bool) (topic : String)
    (raw : Option RawMqttPayload) (prev : LiveSnapshot)
    (h : ∀ p, raw = some p → messageAccepted topic p = false) :
    handleMqttMessage filters topic raw prev = prev := by
  cases raw with
  | none => rfl
  | some p =>
    have hf := h p rfl
    unfold messageAccepted at hf
    cases h1 : p.fields.isSome <;> cases h2 : p.timestamp.isSome <;>
      cases h3 : truthyOptStr p.name <;>
        cases h4 : truthyOptStr ((jsSplit '/' topic).get? 2) <;>
      simp_all [handleMqttMessage]

/-- Witness for `c2_rejected_message_leaves_snapshot` (missing timestamp). -/
theorem c2_rejected_message_leaves_snapshot_witness :
    handleMqttMessage sensorTypeFilters "mapfeed/thws-trees/dev8"
        (some { name := some "s", fields := some [("resistance", .num 1)], timestamp := none })
        emptyLiveData = emptyLiveData :=
  c2_rejected_message_leaves_snapshot sensorTypeFilters "mapfeed/thws-trees/dev8" _ emptyLiveData
    (fun p hp => by cases hp; decide)

/-- Claim C3 is false as stated for field names that collide with the three
provenance keys: in `c3Msgs` only the first (valid) message carries the
field `last_updated_sensor_id` with value `"X"`, yet after the second valid
message the snapshot holds `"B"` there — the provenance write of the later
message overwrote it, so the field does not hold the value of the most
recent message that carried it. -/
theorem c3_counterexample :
    (∀ m ∈ c3Msgs, messageAccepted m.1 m.2 = true)
    ∧ processMessages c3Msgs emptyLiveData "last_updated_sensor_id" = some (.str "B")
    ∧ specLastCarriedValue "last_updated_sensor_id" c3Msgs = some (.str "X")
    ∧ (some (JsVal.str "B") : Option JsVal) ≠ some (.str "X") := by
  refine ⟨by decide, by decide, by decide, by decide⟩

/-- Claim C3 (amended): for every sequence of valid messages applied from the
empty snapshot and every field name other than the three provenance keys
(`last_updated_timestamp`, `last_updated_sensor_id`, `raw_message_name`),
the snapshot holds exactly the value of the most recently processed message
carrying that field, and the field is present exactly when some message in
the sequence carried it (so it is never removed). -/
theorem c3_snapshot_union_and_latest (msgs : List (String × RawMqttPayload))
    (hacc : ∀ m ∈ msgs, messageAccepted m.1 m.2 = true)
    (k : String) (hk : k ∉ provenanceKeys) :
    processMessages msgs emptyLiveData k = specLastCarriedValue k msgs
    ∧ ((processMessages msgs emptyLiveData k).isSome = true ↔
        ∃ m ∈ msgs, (lastFieldValue k (m.2.fields.getD [])).isSome = true) := by
  have h1 := processMessages_apply msgs emptyLiveData k hacc hk
  have h2 : processMessages msgs emptyLiveData k = specLastCarriedValue k msgs :=
    h1.trans (orDefault_none_right _)
  refine ⟨h2, ?_⟩
  rw [h2]
  exact specLastCarriedValue_isSome k msgs

/-- Witness for `c3_snapshot_union_and_latest`. -/
theorem c3_snapshot_union_and_latest_witness :
    processMessages c3WitnessMsgs emptyLiveData "resistance"
      = specLastCarriedValue "resistance" c3WitnessMsgs :=
  (c3_snapshot_union_and_latest c3WitnessMsgs (by decide) "resistance" (by decide)).1
